import Mathlib

/-!
Verification of the BlueZ serial-port session registry (serial/port.c).

The embedding models the two process-wide session lists (connected_nodes,
bound_nodes), the registered D-Bus object paths, the two kinds of watches a
connected session owns (peer-liveness name listener and GIOChannel source
watch), and the two observable effect streams: the ServiceDisconnected
signals that are emitted and the RFCOMM device ids passed to rfcomm_release.

Heap pointer identity of a `struct rfcomm_node` is modelled by a `ref : Nat`
field: `g_slist_remove(list, node)` removes the first link holding that
pointer, which we render as erasing the first list element with the same
`ref`.  External collaborators (glib, D-Bus, the RFCOMM allocator) appear
only through their observable footprint on this state.
-/

set_option maxHeartbeats 1000000

namespace SerialPort

/-- One `struct rfcomm_node` (port.c lines 54-64).  `ref` stands for the heap
identity of the node; `channel` for whether `io`/`io_id` are set (the GIOChannel
is only created by `port_add_listener`).  Addresses are kept as opaque strings,
`conn` (a shared DBusConnection) carries no per-node information and is not
modelled. -/
structure Node where
  ref : Nat
  id : Int
  src : String
  dst : String
  svcname : Option String
  device : String
  owner : Option String
  channel : Bool
deriving DecidableEq, Repr

/-- The mutable state of port.c plus the observable effect streams.
`connected` and `bound` are the two GSLists; `objects` the D-Bus object paths
registered by `port_register` (path, node); `nameWatches` the refs of nodes
with a live name listener; `gsources` the refs of nodes with a live GIOChannel
watch; `signals` the devices carried by emitted ServiceDisconnected signals in
order; `released` the ids passed to `rfcomm_release` in order. -/
structure PortState where
  connected : List Node
  bound : List Node
  objects : List (String × Node)
  nameWatches : List Nat
  gsources : List Nat
  signals : List String
  released : List Int
deriving DecidableEq, Repr

/-- errno value ENOENT. -/
def ENOENT : Int := 2

/-- errno value EPERM. -/
def EPERM : Int := 1

/-- Modelled from the spec: the manager object path constant
(SERIAL_MANAGER_PATH comes from serial/manager.h, which is not under src/);
only its role as a fixed literal matters to the claims, not its exact text. -/
def SERIAL_MANAGER_PATH : String := "/org/bluez/serial"

/-- find_node_by_name (port.c 69-80): linear scan returning the first node
whose `device` string compares equal to `dev`. -/
def find_node_by_name (nodes : List Node) (dev : String) : Option Node :=
  nodes.find? (fun n => n.device == dev)

/-- g_slist_append as used at port.c 305 and 382: insertion at the tail. -/
def g_slist_append (l : List Node) (n : Node) : List Node :=
  l ++ [n]

/-- g_slist_remove as used at port.c 257, 274, 286, 325, 339: removes the
first link holding this node pointer (here: the first element with the same
`ref`). -/
def g_slist_remove_node (l : List Node) (n : Node) : List Node :=
  l.eraseP (fun m => m.ref == n.ref)

/-- dbus_connection_emit_signal of ServiceDisconnected (port.c 252-255 and
269-272): appends the carried device string to the signal stream. -/
def emit_service_disconnected (s : PortState) (dev : String) : PortState :=
  { s with signals := s.signals ++ [dev] }

/-- name_listener_remove (port.c 266-267, 322-323): deregisters the liveness
watch keyed by the node's identity. -/
def name_listener_remove (s : PortState) (ref : Nat) : PortState :=
  { s with nameWatches := s.nameWatches.erase ref }

/-- rfcomm_node_free (port.c 228-245): frees the strings (unobservable), and
if the node has an IO channel removes its source watch and closes the channel;
then calls rfcomm_release(node->id) and frees the node. -/
def rfcomm_node_free (s : PortState) (n : Node) : PortState :=
  { s with
      gsources := if n.channel then s.gsources.erase n.ref else s.gsources,
      released := s.released ++ [n.id] }

/-- connection_owner_exited (port.c 247-259): the liveness-watch callback.
Emits ServiceDisconnected with the node's device, removes the node from
connected_nodes and frees it. -/
def connection_owner_exited (s : PortState) (n : Node) : PortState :=
  let s1 := emit_service_disconnected s n.device
  let s2 := { s1 with connected := g_slist_remove_node s1.connected n }
  rfcomm_node_free s2 n

/-- rfcomm_disconnect_cb (port.c 261-278): the GIOChannel watch callback.
Removes the name listener, emits ServiceDisconnected, removes the node from
connected_nodes and frees it.  It returns FALSE, but the source was already
removed by g_source_remove inside rfcomm_node_free. -/
def rfcomm_disconnect_cb (s : PortState) (n : Node) : PortState :=
  let s1 := name_listener_remove s n.ref
  let s2 := emit_service_disconnected s1 n.device
  let s3 := { s2 with connected := g_slist_remove_node s2.connected n }
  rfcomm_node_free s3 n

/-- port_handler_unregister (port.c 280-288): the D-Bus object-path
unregistration callback; removes the node from bound_nodes and frees it. -/
def port_handler_unregister (s : PortState) (n : Node) : PortState :=
  let s1 := { s with bound := g_slist_remove_node s.bound n }
  rfcomm_node_free s1 n

/-- Modelled from the spec: dbus_connection_destroy_object_path
(dbus-helper.c, not under src/) unpublishes the object registered at `path`
and synchronously invokes its unregister callback, which for ports is
port_handler_unregister with the node the object was created with. -/
def dbus_connection_destroy_object_path (s : PortState) (path : String) : PortState :=
  match s.objects.find? (fun o => o.1 == path) with
  | some o =>
      let s1 := { s with objects := s.objects.eraseP (fun o2 => o2.1 == path) }
      port_handler_unregister s1 o.2
  | none => s

/-- The node built by port_add_listener (port.c 295-303): g_new0 leaves src
zeroed and svcname NULL; dst, id, device, owner are set and a GIOChannel is
created for fd. -/
def mk_listener_node (ref : Nat) (id : Int) (dst dev owner : String) : Node :=
  { ref := ref, id := id, src := "", dst := dst, svcname := none,
    device := dev, owner := some owner, channel := true }

/-- port_add_listener (port.c 290-310): builds the node, registers the
GIOChannel error/hangup watch, appends the node to connected_nodes, then
calls name_listener_add and returns its result directly.  `addResult` is the
value the external name_listener_add returns (0 on success); on success the
liveness watch is registered, on failure it is not — and the function performs
no cleanup either way. -/
def port_add_listener (s : PortState) (ref : Nat) (id : Int)
    (dst dev owner : String) (addResult : Int) : Int × PortState :=
  let node := mk_listener_node ref id dst dev owner
  let s1 := { s with gsources := s.gsources ++ [ref] }
  let s2 := { s1 with connected := g_slist_append s1.connected node }
  if addResult = 0 then
    (addResult, { s2 with nameWatches := s2.nameWatches ++ [ref] })
  else
    (addResult, s2)

/-- port_remove_listener (port.c 312-329): looks up the connected node by
device; -ENOENT if absent; -EPERM if the requester is not the recorded owner;
otherwise removes the name listener, removes the node from connected_nodes,
frees it and returns 0. -/
def port_remove_listener (s : PortState) (owner dev : String) : Int × PortState :=
  match find_node_by_name s.connected dev with
  | none => (-ENOENT, s)
  | some node =>
      if node.owner ≠ some owner then (-EPERM, s)
      else
        let s1 := name_listener_remove s node.ref
        let s2 := { s1 with connected := g_slist_remove_node s1.connected node }
        (0, rfcomm_node_free s2 node)

/-- The loop of port_release_all (port.c 336-341).  The C loop advances
through the stale link after g_slist_remove has freed it (`l = l->next`), so
in effect it walks the original list snapshot, removing and freeing each
element in order; the recursion makes that traversal explicit. -/
def releaseLoop : List Node → PortState → PortState
  | [], s => s
  | n :: rest, s =>
      let s1 := { s with connected := g_slist_remove_node s.connected n }
      releaseLoop rest (rfcomm_node_free s1 n)

/-- port_release_all (port.c 331-342): tears down every connected node via
rfcomm_node_free.  Note that it never emits ServiceDisconnected and never
removes the name listeners. -/
def port_release_all (s : PortState) : PortState :=
  releaseLoop s.connected s

/-- The object path built at port.c 358: snprintf(path, MAX_PATH_LENGTH,
"%s/rfcomm%hd", SERIAL_MANAGER_PATH, id).  MAX_PATH_LENGTH is large enough
that no truncation occurs here. -/
def rfcomm_path (id : Int) : String :=
  SERIAL_MANAGER_PATH ++ "/rfcomm" ++ toString id

/-- The node built by port_register (port.c 350-356): src, dst, id, device
are set; svcname defaults to "Bluetooth RFCOMM port" when NULL; owner stays
NULL and no IO channel exists. -/
def mk_register_node (ref : Nat) (id : Int) (src dst dev : String)
    (svc : Option String) : Node :=
  { ref := ref, id := id, src := src, dst := dst,
    svcname := some (svc.getD "Bluetooth RFCOMM port"),
    device := dev, owner := none, channel := false }

/-- port_register (port.c 344-385): builds the node and the object path; if
dbus_connection_create_object_path fails the node is freed and -1 returned;
if dbus_connection_register_interface fails the object path is destroyed
(which frees the node through port_handler_unregister) and -1 returned;
otherwise the node is appended to bound_nodes and 0 returned.  `createOk` and
`ifaceOk` are the outcomes of the two external D-Bus calls. -/
def port_register (s : PortState) (ref : Nat) (id : Int) (src dst dev : String)
    (svc : Option String) (createOk ifaceOk : Bool) : Int × PortState :=
  let node := mk_register_node ref id src dst dev svc
  let path := rfcomm_path id
  if createOk then
    let s1 := { s with objects := s.objects ++ [(path, node)] }
    if ifaceOk then
      (0, { s1 with bound := g_slist_append s1.bound node })
    else
      (-1, dbus_connection_destroy_object_path s1 path)
  else
    (-1, rfcomm_node_free s node)

/-- C isspace characters skipped by the %hd conversion of sscanf. -/
def is_c_space (c : Char) : Bool :=
  c == ' ' || c == '\t' || c == '\n' || c == '\x0b' || c == '\x0c' || c == '\r'

/-- Matches a literal character sequence at the head of the input, returning
the remainder, as sscanf does for ordinary format characters. -/
def drop_literal : List Char → List Char → Option (List Char)
  | [], cs => some cs
  | _ :: _, [] => none
  | p :: ps, c :: cs => if c = p then drop_literal ps cs else none

/-- The %hd conversion of sscanf (port.c 393): skips C whitespace, accepts an
optional sign and at least one decimal digit, tolerates trailing characters,
and stores into an int16_t.  Out-of-range values are undefined behaviour in C;
the embedding defines only in-range parses. -/
def sscanf_hd (cs : List Char) : Option Int :=
  let cs1 := cs.dropWhile is_c_space
  let signed : Bool × List Char :=
    match cs1 with
    | '-' :: rest => (true, rest)
    | '+' :: rest => (false, rest)
    | _ => (false, cs1)
  let ds := signed.2.takeWhile Char.isDigit
  if ds.isEmpty then none
  else
    let v : Int := ds.foldl (fun a c => a * 10 + ((c.toNat - 48 : Nat) : Int)) 0
    let v := if signed.1 then -v else v
    if -32768 ≤ v ∧ v ≤ 32767 then some v else none

/-- sscanf(path, SERIAL_MANAGER_PATH"/rfcomm%hd", &id) at port.c 393: the
literal prefix must match, then %hd must convert; a successful conversion
returns 1 even when unconsumed characters remain. -/
def sscanf_rfcomm (path : String) : Option Int :=
  match drop_literal (SERIAL_MANAGER_PATH ++ "/rfcomm").data path.data with
  | some rest => sscanf_hd rest
  | none => none

/-- Decimal rendering of an int16 value as printed by %hd. -/
def int_chars (i : Int) : List Char :=
  if i < 0 then '-' :: Nat.toDigits 10 i.natAbs else Nat.toDigits 10 i.natAbs

/-- snprintf(dev, sizeof(dev), "/dev/rfcomm%hd", id) at port.c 396 with
char dev[16]: at most 15 characters are kept, so device names for ids of five
or more decimal digits (or below -999) are truncated. -/
def snprintf_dev (i : Int) : String :=
  ⟨(("/dev/rfcomm".data) ++ int_chars i).take 15⟩

/-- port_unregister (port.c 387-404): parses the object path, rebuilds the
device name from the id, looks it up among the bound nodes (-ENOENT on either
failure) and destroys the object registered at the supplied path, which frees
the node registered there.  It returns 0 whenever the lookup succeeded. -/
def port_unregister (s : PortState) (path : String) : Int × PortState :=
  match sscanf_rfcomm path with
  | none => (-ENOENT, s)
  | some id =>
      let dev := snprintf_dev id
      match find_node_by_name s.bound dev with
      | none => (-ENOENT, s)
      | some _ => (0, dbus_connection_destroy_object_path s path)

/-- Modelled from the spec: the manager's disconnect entry point (the caller
of port_remove_listener, in serial/manager.c, not under src/) emits exactly
one ServiceDisconnected notification carrying the device path when and only
when port_remove_listener succeeds. -/
def manager_disconnect (s : PortState) (owner dev : String) : Int × PortState :=
  let r := port_remove_listener s owner dev
  if r.1 = 0 then (0, emit_service_disconnected r.2 dev) else r

/-- Modelled from the spec: the peer-liveness watcher fires a registered watch
at most once, consuming the registration before invoking its callback
(connection_owner_exited) — name_listener dispatch lives in dbus.c, not under
src/.  A node without a registered watch cannot fire. -/
def fire_name_listener (s : PortState) (n : Node) : PortState :=
  if n.ref ∈ s.nameWatches then
    connection_owner_exited (name_listener_remove s n.ref) n
  else s

/-- Firing the GIOChannel error/hangup watch: dispatches rfcomm_disconnect_cb
when the node's source watch is still registered; the source itself is removed
by the g_source_remove inside rfcomm_node_free (and the callback additionally
returns FALSE). -/
def fire_channel_watch (s : PortState) (n : Node) : PortState :=
  if n.ref ∈ s.gsources then rfcomm_disconnect_cb s n else s

/-! Helper lemmas about the registry primitives. -/

theorem find_node_none {l : List Node} {d : String}
    (h : ∀ m ∈ l, m.device ≠ d) : find_node_by_name l d = none := by
  unfold find_node_by_name
  rw [List.find?_eq_none]
  intro x hx
  simpa using h x hx

theorem find_node_append_none {l1 l2 : List Node} {d : String}
    (h : ∀ m ∈ l1, m.device ≠ d) :
    find_node_by_name (l1 ++ l2) d = find_node_by_name l2 d := by
  unfold find_node_by_name
  rw [List.find?_append]
  have h1 : l1.find? (fun n => n.device == d) = none := by
    rw [List.find?_eq_none]; intro x hx; simpa using h x hx
  rw [h1, Option.none_or]

theorem find_node_cons_self {n : Node} {rest : List Node} {d : String}
    (h : n.device = d) : find_node_by_name (n :: rest) d = some n := by
  unfold find_node_by_name
  exact List.find?_cons_of_pos _ (by simp [h])

theorem find_node_mem {l : List Node} {d : String} {n : Node}
    (h : find_node_by_name l d = some n) : n ∈ l :=
  List.mem_of_find?_eq_some h

theorem find_node_device {l : List Node} {d : String} {n : Node}
    (h : find_node_by_name l d = some n) : n.device = d := by
  have := List.find?_some h
  simpa using this

theorem remove_node_head {n : Node} {rest : List Node} :
    g_slist_remove_node (n :: rest) n = rest := by
  unfold g_slist_remove_node
  exact List.eraseP_cons_of_pos (by simp)

theorem remove_node_append {l1 l2 : List Node} {n : Node}
    (h : ∀ m ∈ l1, m.ref ≠ n.ref) :
    g_slist_remove_node (l1 ++ l2) n = l1 ++ g_slist_remove_node l2 n := by
  unfold g_slist_remove_node
  exact List.eraseP_append_right _ (by intro b hb; simpa using h b hb)

theorem remove_node_absent {l : List Node} {n : Node}
    (h : ∀ m ∈ l, m.ref ≠ n.ref) : g_slist_remove_node l n = l := by
  unfold g_slist_remove_node
  exact List.eraseP_of_forall_not (by intro a ha; simpa using h a ha)

theorem remove_node_subset {l : List Node} {n m : Node}
    (h : m ∈ g_slist_remove_node l n) : m ∈ l :=
  List.eraseP_subset _ h

/-- After removing a node from a list whose refs are distinct, no element with
that ref remains. -/
theorem remove_node_complete {l : List Node} {n : Node}
    (hn : n ∈ l) (hd : (l.map Node.ref).Nodup) :
    ∀ m ∈ g_slist_remove_node l n, m.ref ≠ n.ref := by
  induction l with
  | nil => cases hn
  | cons a t ih =>
    have hd1 : a.ref ∉ t.map Node.ref := (List.nodup_cons.mp hd).1
    have hd2 : (t.map Node.ref).Nodup := (List.nodup_cons.mp hd).2
    by_cases ha : a.ref = n.ref
    · rw [g_slist_remove_node, List.eraseP_cons_of_pos (by simp [ha])]
      intro m hm hcontra
      exact hd1 (by rw [List.mem_map]; exact ⟨m, hm, by rw [hcontra, ← ha]⟩)
    · rw [g_slist_remove_node, List.eraseP_cons_of_neg (by simp [ha])]
      intro m hm
      rcases List.mem_cons.mp hm with rfl | hm2
      · exact ha
      · have hnt : n ∈ t := by
          rcases List.mem_cons.mp hn with rfl | hnt
          · exact absurd rfl ha
          · exact hnt
        exact ih hnt hd2 m hm2

/-- Characterization of port_remove_listener when no connected node carries
the device. -/
theorem remove_listener_not_found {s : PortState} {w dev : String}
    (h : find_node_by_name s.connected dev = none) :
    port_remove_listener s w dev = (-ENOENT, s) := by
  simp only [port_remove_listener, h]

/-- Characterization of port_remove_listener when the requester is not the
owner. -/
theorem remove_listener_forbidden {s : PortState} {w dev : String} {n : Node}
    (h : find_node_by_name s.connected dev = some n)
    (hw : n.owner ≠ some w) :
    port_remove_listener s w dev = (-EPERM, s) := by
  simp only [port_remove_listener, h]
  rw [if_pos hw]

/-- Characterization of port_remove_listener on the owner's request. -/
theorem remove_listener_success {s : PortState} {w dev : String} {n : Node}
    (h : find_node_by_name s.connected dev = some n)
    (hw : n.owner = some w) :
    port_remove_listener s w dev =
      (0, { s with connected := g_slist_remove_node s.connected n,
                   nameWatches := s.nameWatches.erase n.ref,
                   gsources := if n.channel then s.gsources.erase n.ref
                               else s.gsources,
                   released := s.released ++ [n.id] }) := by
  simp only [port_remove_listener, h]
  rw [if_neg (by simp [hw])]
  simp [name_listener_remove, rfcomm_node_free]

/-! Concrete sample sessions and registry states used as witnesses. -/

def nodeA : Node :=
  { ref := 0, id := 3, src := "00:11:22:33:44:55", dst := "AA:BB:CC:DD:EE:FF",
    svcname := none, device := "/dev/rfcomm0", owner := some "org.client.Z",
    channel := true }

def nodeB : Node :=
  { ref := 1, id := 4, src := "00:11:22:33:44:55", dst := "AA:BB:CC:DD:EE:00",
    svcname := none, device := "/dev/rfcomm0", owner := some "org.client.W",
    channel := true }

def nodeC : Node :=
  { ref := 2, id := 1234, src := "00:11:22:33:44:55",
    dst := "AA:BB:CC:DD:EE:FF", svcname := some "OBEX",
    device := "/dev/rfcomm1234", owner := none, channel := false }

def emptyState : PortState :=
  { connected := [], bound := [], objects := [], nameWatches := [],
    gsources := [], signals := [], released := [] }

def sampleConn : PortState :=
  { connected := [nodeA], bound := [], objects := [], nameWatches := [0],
    gsources := [0], signals := [], released := [] }

def dupConn : PortState :=
  { connected := [nodeA, nodeB], bound := [], objects := [],
    nameWatches := [0, 1], gsources := [0, 1], signals := [], released := [] }

def dupBound : PortState :=
  { connected := [], bound := [nodeA, nodeB], objects := [],
    nameWatches := [], gsources := [], signals := [], released := [] }

def boundTrunc : PortState :=
  { connected := [], bound := [nodeC],
    objects := [(rfcomm_path 1234, nodeC)], nameWatches := [],
    gsources := [], signals := [], released := [] }

/-- Claim C5: on a disconnect request, an unknown device path yields
not-found with the state untouched; a requester other than the session's
owner yields forbidden with the state (collections, watches, resources)
completely untouched; only the owner's request succeeds, and then the
teardown removes the session from the connected collection, deregisters its
liveness watch and releases its resource id, leaving the bound collection
alone. -/
theorem port_remove_listener_cases (s : PortState) (w dev : String) :
    (find_node_by_name s.connected dev = none →
      port_remove_listener s w dev = (-ENOENT, s)) ∧
    (∀ n, find_node_by_name s.connected dev = some n → n.owner ≠ some w →
      port_remove_listener s w dev = (-EPERM, s)) ∧
    (∀ n, find_node_by_name s.connected dev = some n → n.owner = some w →
      (port_remove_listener s w dev).1 = 0 ∧
      (port_remove_listener s w dev).2.connected
        = g_slist_remove_node s.connected n ∧
      (port_remove_listener s w dev).2.bound = s.bound ∧
      (port_remove_listener s w dev).2.nameWatches
        = s.nameWatches.erase n.ref ∧
      (port_remove_listener s w dev).2.released = s.released ++ [n.id]) := by
  refine ⟨fun h => remove_listener_not_found h,
          fun n h hw => remove_listener_forbidden h hw,
          fun n h hw => ?_⟩
  rw [remove_listener_success h hw]
  exact ⟨rfl, rfl, rfl, rfl, rfl⟩

/-- Witness for C5: on a one-session registry, a lookup miss returns
not-found leaving the state intact, a non-owner returns forbidden leaving the
state intact, and the owner's request returns success. -/
theorem port_remove_listener_cases_witness :
    port_remove_listener emptyState "org.client.Z" "/dev/rfcomm0"
      = (-ENOENT, emptyState) ∧
    port_remove_listener sampleConn "org.client.Y" "/dev/rfcomm0"
      = (-EPERM, sampleConn) ∧
    (port_remove_listener sampleConn "org.client.Z" "/dev/rfcomm0").1 = 0 := by
  refine ⟨?_, ?_, ?_⟩
  · exact (port_remove_listener_cases emptyState "org.client.Z"
      "/dev/rfcomm0").1 rfl
  · exact (port_remove_listener_cases sampleConn "org.client.Y"
      "/dev/rfcomm0").2.1 nodeA rfl (by decide)
  · exact ((port_remove_listener_cases sampleConn "org.client.Z"
      "/dev/rfcomm0").2.2 nodeA rfl rfl).1

/-- Claim C1: an owner's disconnect request on a connected session succeeds,
emits exactly one ServiceDisconnected notification carrying the session's
device path, and leaves the connected collection without that session.  The
notification itself is emitted by the manager caller (modelled from the
spec), since port_remove_listener only performs the teardown. -/
theorem manager_disconnect_owner_ok (s : PortState) (w dev : String) (n : Node)
    (hf : find_node_by_name s.connected dev = some n)
    (hw : n.owner = some w)
    (hr : (s.connected.map Node.ref).Nodup) :
    (manager_disconnect s w dev).1 = 0 ∧
    (manager_disconnect s w dev).2.signals = s.signals ++ [dev] ∧
    (manager_disconnect s w dev).2.connected
      = g_slist_remove_node s.connected n ∧
    n ∉ (manager_disconnect s w dev).2.connected := by
  have hres := remove_listener_success hf hw
  have hcon : (manager_disconnect s w dev).2.connected
      = g_slist_remove_node s.connected n := by
    simp [manager_disconnect, hres, emit_service_disconnected]
  refine ⟨?_, ?_, hcon, ?_⟩
  · simp [manager_disconnect, hres]
  · simp [manager_disconnect, hres, emit_service_disconnected]
  · intro hmem
    rw [hcon] at hmem
    exact remove_node_complete (find_node_mem hf) hr n hmem rfl

/-- Witness for C1: disconnecting /dev/rfcomm0 as its owner org.client.Z
succeeds, empties the connected collection and emits exactly one
notification with that path. -/
theorem manager_disconnect_owner_ok_witness :
    find_node_by_name sampleConn.connected "/dev/rfcomm0" = some nodeA ∧
    (manager_disconnect sampleConn "org.client.Z" "/dev/rfcomm0").1 = 0 ∧
    (manager_disconnect sampleConn "org.client.Z" "/dev/rfcomm0").2.signals
      = ["/dev/rfcomm0"] ∧
    (manager_disconnect sampleConn "org.client.Z"
      "/dev/rfcomm0").2.connected = [] := by
  have h := manager_disconnect_owner_ok sampleConn "org.client.Z"
    "/dev/rfcomm0" nodeA rfl rfl (by decide)
  exact ⟨rfl, h.1, by simpa using h.2.1, by simpa using h.2.2.1⟩

/-- The release loop, run on the current connected list, empties it, releases
every id in order, and leaves the bound list, the signal stream and the name
watches untouched. -/
theorem releaseLoop_spec (todo : List Node) :
    ∀ s : PortState, s.connected = todo →
      (releaseLoop todo s).connected = [] ∧
      (releaseLoop todo s).bound = s.bound ∧
      (releaseLoop todo s).signals = s.signals ∧
      (releaseLoop todo s).nameWatches = s.nameWatches ∧
      (releaseLoop todo s).released
        = s.released ++ todo.map Node.id := by
  induction todo with
  | nil => intro s hs; simp [releaseLoop, hs]
  | cons n rest ih =>
    intro s hs
    have hstep : releaseLoop (n :: rest) s
        = releaseLoop rest
            (rfcomm_node_free
              { s with connected := g_slist_remove_node s.connected n } n) := rfl
    have hrm : g_slist_remove_node s.connected n = rest := by
      rw [hs]; exact remove_node_head
    set s2 := rfcomm_node_free
      { s with connected := g_slist_remove_node s.connected n } n with hs2
    have hconn2 : s2.connected = rest := by
      simp [hs2, rfcomm_node_free, hrm]
    have h := ih s2 hconn2
    rw [hstep]
    refine ⟨h.1, ?_, ?_, ?_, ?_⟩
    · rw [h.2.1]; simp [hs2, rfcomm_node_free]
    · rw [h.2.2.1]; simp [hs2, rfcomm_node_free]
    · rw [h.2.2.2.1]; simp [hs2, rfcomm_node_free]
    · rw [h.2.2.2.2]; simp [hs2, rfcomm_node_free, List.append_assoc]

/-- Counterexample to claim C2: with one connected session, port_release_all
tears it down but emits zero ServiceDisconnected notifications (the claim
demands exactly one per formerly connected session).  The id is released and
the connected collection emptied, yet the signal stream stays empty. -/
theorem port_release_all_emits_nothing_cex :
    sampleConn.connected = [nodeA] ∧
    (port_release_all sampleConn).connected = [] ∧
    (port_release_all sampleConn).released = [3] ∧
    (port_release_all sampleConn).signals = [] ∧
    ((port_release_all sampleConn).signals.count nodeA.device = 0) := by
  exact ⟨rfl, rfl, rfl, rfl, rfl⟩

/-- Claim C2 as amended: for every registry state, port_release_all empties
the connected collection, releases each formerly connected session's resource
id exactly once (in list order), leaves the bound collection unchanged — and
emits no disconnect notification at all, because it frees the nodes through
rfcomm_node_free without signalling (it also leaves every liveness watch
registered). -/
theorem port_release_all_spec (s : PortState) :
    (port_release_all s).connected = [] ∧
    (port_release_all s).bound = s.bound ∧
    (port_release_all s).signals = s.signals ∧
    (port_release_all s).nameWatches = s.nameWatches ∧
    (port_release_all s).released
      = s.released ++ s.connected.map Node.id :=
  releaseLoop_spec s.connected s rfl

/-- Counterexample to claim C3: when name_listener_add fails (returns -1),
port_add_listener returns the failure but the fresh session is left inside
the connected collection with its transport watch still registered — nothing
is torn down, contradicting the claim. -/
theorem port_add_listener_failure_leak_cex :
    (port_add_listener emptyState 5 7 "AA:BB:CC:DD:EE:FF" "/dev/rfcomm1"
        "org.client.Q" (-1)).1 = -1 ∧
    (port_add_listener emptyState 5 7 "AA:BB:CC:DD:EE:FF" "/dev/rfcomm1"
        "org.client.Q" (-1)).2.connected
      = [mk_listener_node 5 7 "AA:BB:CC:DD:EE:FF" "/dev/rfcomm1"
          "org.client.Q"] ∧
    (port_add_listener emptyState 5 7 "AA:BB:CC:DD:EE:FF" "/dev/rfcomm1"
        "org.client.Q" (-1)).2.gsources = [5] := by
  exact ⟨rfl, rfl, rfl⟩

/-- Claim C3 as amended: if the liveness watch cannot be installed,
port_add_listener returns the failure code unchanged, but performs no
teardown: the session remains appended to the connected collection, its
transport watch remains registered, and no liveness watch is added. -/
theorem port_add_listener_failure_spec (s : PortState) (ref : Nat) (id : Int)
    (dst dev owner : String) (addResult : Int) (hfail : addResult ≠ 0) :
    (port_add_listener s ref id dst dev owner addResult).1 = addResult ∧
    (port_add_listener s ref id dst dev owner addResult).2.connected
      = g_slist_append s.connected (mk_listener_node ref id dst dev owner) ∧
    (port_add_listener s ref id dst dev owner addResult).2.gsources
      = s.gsources ++ [ref] ∧
    (port_add_listener s ref id dst dev owner addResult).2.nameWatches
      = s.nameWatches := by
  simp [port_add_listener, g_slist_append, hfail]

/-- Witness for the amended C3: a concrete failing name_listener_add leaves
the new session connected with a live transport watch. -/
theorem port_add_listener_failure_witness :
    (port_add_listener emptyState 6 8 "AA:BB:CC:DD:EE:FF" "/dev/rfcomm2"
        "org.client.R" (-22)).1 = -22 ∧
    (port_add_listener emptyState 6 8 "AA:BB:CC:DD:EE:FF" "/dev/rfcomm2"
        "org.client.R" (-22)).2.connected
      = [mk_listener_node 6 8 "AA:BB:CC:DD:EE:FF" "/dev/rfcomm2"
          "org.client.R"] ∧
    (port_add_listener emptyState 6 8 "AA:BB:CC:DD:EE:FF" "/dev/rfcomm2"
        "org.client.R" (-22)).2.gsources = [6] := by
  have h := port_add_listener_failure_spec emptyState 6 8 "AA:BB:CC:DD:EE:FF"
    "/dev/rfcomm2" "org.client.R" (-22) (by decide)
  exact ⟨h.1, by simpa [emptyState, g_slist_append] using h.2.1,
    by simpa [emptyState] using h.2.2.1⟩

/-- Claim C4: starting from a registry with no sessions, a bind whose bus
publication fails at either stage (object-path creation or interface
registration) returns -1, leaves both collections empty and the object table
as it was, and releases the allocated resource id exactly once. -/
theorem port_register_failure_no_leak (s : PortState) (ref : Nat) (id : Int)
    (src dst dev : String) (svc : Option String) (createOk ifaceOk : Bool)
    (hb : s.bound = []) (hc : s.connected = [])
    (hobj : ∀ o ∈ s.objects, o.1 ≠ rfcomm_path id)
    (hfail : createOk = false ∨ ifaceOk = false) :
    (port_register s ref id src dst dev svc createOk ifaceOk).1 = -1 ∧
    (port_register s ref id src dst dev svc createOk ifaceOk).2.bound = [] ∧
    (port_register s ref id src dst dev svc createOk ifaceOk).2.connected
      = [] ∧
    (port_register s ref id src dst dev svc createOk ifaceOk).2.objects
      = s.objects ∧
    (port_register s ref id src dst dev svc createOk ifaceOk).2.released
      = s.released ++ [id] := by
  cases hcr : createOk with
  | false =>
    simp [port_register, rfcomm_node_free, mk_register_node, hb, hc]
  | true =>
    have hif : ifaceOk = false := by
      rcases hfail with h | h
      · rw [hcr] at h; cases h
      · exact h
    have hpre : s.objects.find? (fun o => o.1 == rfcomm_path id) = none := by
      rw [List.find?_eq_none]; intro x hx; simpa using hobj x hx
    have hfind : (s.objects
          ++ [(rfcomm_path id, mk_register_node ref id src dst dev svc)]).find?
            (fun o => o.1 == rfcomm_path id)
        = some (rfcomm_path id, mk_register_node ref id src dst dev svc) := by
      rw [List.find?_append, hpre, Option.none_or]; simp
    have herase : (s.objects
          ++ [(rfcomm_path id, mk_register_node ref id src dst dev svc)]).eraseP
            (fun o => o.1 == rfcomm_path id) = s.objects := by
      rw [List.eraseP_append_right _ (by intro b hb2; simpa using hobj b hb2)]
      simp
    simp only [mk_register_node] at hfind herase
    simp only [port_register, hif, Bool.false_eq_true, if_false, if_true,
      dbus_connection_destroy_object_path, hfind, herase,
      port_handler_unregister, rfcomm_node_free, g_slist_remove_node,
      mk_register_node]
    simp [hb, hc, hpre, herase, mk_register_node]

/-- Witness for C4: a concrete bind whose interface registration fails leaves
the empty registry empty and releases id 9 exactly once. -/
theorem port_register_failure_witness :
    (port_register emptyState 7 9 "00:11:22:33:44:55" "AA:BB:CC:DD:EE:FF"
        "/dev/rfcomm9" (some "OBEX") true false).1 = -1 ∧
    (port_register emptyState 7 9 "00:11:22:33:44:55" "AA:BB:CC:DD:EE:FF"
        "/dev/rfcomm9" (some "OBEX") true false).2.bound = [] ∧
    (port_register emptyState 7 9 "00:11:22:33:44:55" "AA:BB:CC:DD:EE:FF"
        "/dev/rfcomm9" (some "OBEX") true false).2.released = [9] := by
  have h := port_register_failure_no_leak emptyState 7 9 "00:11:22:33:44:55"
    "AA:BB:CC:DD:EE:FF" "/dev/rfcomm9" (some "OBEX") true false rfl rfl
    (by intro o ho; cases ho) (Or.inr rfl)
  exact ⟨h.1, h.2.1, by simpa [emptyState] using h.2.2.2.2⟩

/-- Counterexample to claim C6: invoking the teardown routine
(connection_owner_exited) twice on the same session is not the same as
invoking it once — the second invocation releases the resource id a second
time and emits the disconnect notification a second time. -/
theorem teardown_twice_double_release_cex :
    (connection_owner_exited (connection_owner_exited sampleConn nodeA)
        nodeA).released = [3, 3] ∧
    (connection_owner_exited sampleConn nodeA).released = [3] ∧
    (connection_owner_exited (connection_owner_exited sampleConn nodeA)
        nodeA).signals = ["/dev/rfcomm0", "/dev/rfcomm0"] ∧
    (connection_owner_exited sampleConn nodeA).signals = ["/dev/rfcomm0"] ∧
    connection_owner_exited (connection_owner_exited sampleConn nodeA) nodeA
      ≠ connection_owner_exited sampleConn nodeA := by
  exact ⟨rfl, rfl, rfl, rfl,
    fun h => absurd (congrArg PortState.released h) (by decide)⟩

/-- Claim C6 as amended: the teardown routine itself is not idempotent (a
second direct invocation double-releases the id and double-emits the
notification, see the counterexample); what the code guarantees instead is
that teardown effects occur at most once per session, because one teardown
removes the session from the connected collection and leaves both of its
watches deregistered — so firing either watch again is a no-op and an
explicit disconnect for its device reports not-found with the state
untouched. -/
theorem teardown_at_most_once (s : PortState) (n : Node)
    (h1 : n.ref ∈ s.nameWatches) (hch : n.channel = true)
    (hmem : n ∈ s.connected)
    (hrefs : (s.connected.map Node.ref).Nodup)
    (hnw : s.nameWatches.Nodup) (hgs : s.gsources.Nodup)
    (hdev : ∀ m ∈ s.connected, m.ref ≠ n.ref → m.device ≠ n.device) :
    (∀ m ∈ (fire_name_listener s n).connected, m.ref ≠ n.ref) ∧
    n.ref ∉ (fire_name_listener s n).nameWatches ∧
    n.ref ∉ (fire_name_listener s n).gsources ∧
    fire_name_listener (fire_name_listener s n) n = fire_name_listener s n ∧
    fire_channel_watch (fire_name_listener s n) n = fire_name_listener s n ∧
    ∀ w, port_remove_listener (fire_name_listener s n) w n.device
      = (-ENOENT, fire_name_listener s n) := by
  have hfn : fire_name_listener s n
      = connection_owner_exited (name_listener_remove s n.ref) n := by
    rw [fire_name_listener, if_pos h1]
  have hconn : (fire_name_listener s n).connected
      = g_slist_remove_node s.connected n := by
    rw [hfn]; rfl
  have hnwres : (fire_name_listener s n).nameWatches
      = s.nameWatches.erase n.ref := by
    rw [hfn]; rfl
  have hgsres : (fire_name_listener s n).gsources
      = s.gsources.erase n.ref := by
    rw [hfn]
    simp [connection_owner_exited, name_listener_remove,
      emit_service_disconnected, rfcomm_node_free, hch]
  have hcompl : ∀ m ∈ (fire_name_listener s n).connected, m.ref ≠ n.ref := by
    rw [hconn]; exact remove_node_complete hmem hrefs
  have hnotnw : n.ref ∉ (fire_name_listener s n).nameWatches := by
    rw [hnwres]
    intro hin
    exact absurd (((hnw.mem_erase_iff).mp hin).1) (by simp)
  have hnotgs : n.ref ∉ (fire_name_listener s n).gsources := by
    rw [hgsres]
    intro hin
    exact absurd (((hgs.mem_erase_iff).mp hin).1) (by simp)
  have hfind : find_node_by_name (fire_name_listener s n).connected n.device
      = none := by
    apply find_node_none
    intro m hm
    exact hdev m (remove_node_subset (by rw [← hconn]; exact hm))
      (hcompl m hm)
  refine ⟨hcompl, hnotnw, hnotgs, ?_, ?_, ?_⟩
  · rw [fire_name_listener, if_neg hnotnw]
  · rw [fire_channel_watch, if_neg hnotgs]
  · intro w; exact remove_listener_not_found hfind

/-- Witness for the amended C6: after tearing down the one connected session,
its session is gone, both watches are gone, re-firing either watch changes
nothing, and a second disconnect reports not-found. -/
theorem teardown_at_most_once_witness :
    (fire_name_listener sampleConn nodeA).connected = [] ∧
    fire_name_listener (fire_name_listener sampleConn nodeA) nodeA
      = fire_name_listener sampleConn nodeA ∧
    port_remove_listener (fire_name_listener sampleConn nodeA)
      "org.client.Z" "/dev/rfcomm0"
      = (-ENOENT, fire_name_listener sampleConn nodeA) := by
  have h := teardown_at_most_once sampleConn nodeA (by decide) rfl
    (by decide) (by decide) (by decide) (by decide) (by decide)
  refine ⟨by decide, h.2.2.2.1, ?_⟩
  have hd : nodeA.device = "/dev/rfcomm0" := rfl
  rw [← hd]
  exact h.2.2.2.2.2 "org.client.Z"

/-- Claim C7: firing the transport-event watch and firing the peer-liveness
watch of a connected session are the identical state transformation, and the
common result shows exactly one ServiceDisconnected notification carrying the
session's device, exactly one release of its resource id, removal from the
connected collection, and both watches gone. -/
theorem watch_triggers_equivalent (s : PortState) (n : Node)
    (h1 : n.ref ∈ s.nameWatches) (h2 : n.ref ∈ s.gsources)
    (hch : n.channel = true) (hmem : n ∈ s.connected)
    (hrefs : (s.connected.map Node.ref).Nodup)
    (hnw : s.nameWatches.Nodup) (hgs : s.gsources.Nodup) :
    fire_name_listener s n = fire_channel_watch s n ∧
    (fire_channel_watch s n).signals = s.signals ++ [n.device] ∧
    (fire_channel_watch s n).released = s.released ++ [n.id] ∧
    (∀ m ∈ (fire_channel_watch s n).connected, m.ref ≠ n.ref) ∧
    n.ref ∉ (fire_channel_watch s n).nameWatches ∧
    n.ref ∉ (fire_channel_watch s n).gsources := by
  have heq : fire_name_listener s n = fire_channel_watch s n := by
    rw [fire_name_listener, if_pos h1, fire_channel_watch, if_pos h2]
    exact rfl
  have hcb : fire_channel_watch s n = rfcomm_disconnect_cb s n := by
    rw [fire_channel_watch, if_pos h2]
  refine ⟨heq, ?_, ?_, ?_, ?_, ?_⟩
  · rw [hcb]; rfl
  · rw [hcb]; rfl
  · rw [hcb]
    have : (rfcomm_disconnect_cb s n).connected
        = g_slist_remove_node s.connected n := rfl
    rw [this]
    exact remove_node_complete hmem hrefs
  · rw [hcb]
    have : (rfcomm_disconnect_cb s n).nameWatches
        = s.nameWatches.erase n.ref := rfl
    rw [this]
    intro hin
    exact absurd (((hnw.mem_erase_iff).mp hin).1) (by simp)
  · rw [hcb]
    have : (rfcomm_disconnect_cb s n).gsources
        = s.gsources.erase n.ref := by
      simp [rfcomm_disconnect_cb, name_listener_remove,
        emit_service_disconnected, rfcomm_node_free, hch]
    rw [this]
    intro hin
    exact absurd (((hgs.mem_erase_iff).mp hin).1) (by simp)

/-- Witness for C7: on the one-session registry both triggers coincide and
produce one notification for /dev/rfcomm0 and one release of id 3. -/
theorem watch_triggers_equivalent_witness :
    fire_name_listener sampleConn nodeA = fire_channel_watch sampleConn nodeA ∧
    (fire_channel_watch sampleConn nodeA).signals = ["/dev/rfcomm0"] ∧
    (fire_channel_watch sampleConn nodeA).released = [3] := by
  have h := watch_triggers_equivalent sampleConn nodeA (by decide) (by decide)
    rfl (by decide) (by decide) (by decide) (by decide)
  exact ⟨h.1, by simpa using h.2.1, by simpa using h.2.2.1⟩

/-- Claim C8: a session inserted (appended) into a collection none of whose
members carry its device path is found by find_node_by_name on that
collection; the other collection, free of that device path, reports
not-found; and after removing the session from the collection it lived in,
lookup reports not-found again. -/
theorem find_after_insert_remove (l other : List Node) (n : Node)
    (h1 : ∀ m ∈ l, m.device ≠ n.device)
    (h2 : ∀ m ∈ other, m.device ≠ n.device)
    (h3 : ∀ m ∈ l, m.ref ≠ n.ref) :
    find_node_by_name (g_slist_append l n) n.device = some n ∧
    find_node_by_name other n.device = none ∧
    find_node_by_name (g_slist_remove_node (g_slist_append l n) n) n.device
      = none := by
  refine ⟨?_, find_node_none h2, ?_⟩
  · rw [g_slist_append, find_node_append_none h1]
    exact find_node_cons_self rfl
  · rw [g_slist_append, remove_node_append h3, remove_node_head,
      List.append_nil]
    exact find_node_none h1

/-- Witness for C8: inserting the sample session into an empty collection
makes it findable there, not in the other empty collection, and removing it
makes it unfindable again. -/
theorem find_after_insert_remove_witness :
    find_node_by_name (g_slist_append [] nodeA) nodeA.device = some nodeA ∧
    find_node_by_name ([] : List Node) nodeA.device = none ∧
    find_node_by_name (g_slist_remove_node (g_slist_append [] nodeA) nodeA)
      nodeA.device = none := by
  have h := find_after_insert_remove [] [] nodeA (by simp) (by simp) (by simp)
  exact ⟨h.1, h.2.1, h.2.2⟩

/-- Counterexample to claim C9: the device name is rebuilt with snprintf into
a 16-byte buffer, so for id 12345 it is truncated to "/dev/rfcomm1234".  With
one bound session at "/dev/rfcomm1234", unregistering the object path
".../rfcomm12345" succeeds (returns 0) although no bound session's device is
the string "/dev/rfcomm12345" the claim reconstructs from that id. -/
theorem port_unregister_truncation_cex :
    sscanf_rfcomm "/org/bluez/serial/rfcomm12345" = some 12345 ∧
    snprintf_dev 12345 = "/dev/rfcomm1234" ∧
    (port_unregister boundTrunc "/org/bluez/serial/rfcomm12345").1 = 0 ∧
    (∀ n ∈ boundTrunc.bound, n.device ≠ "/dev/rfcomm12345") := by
  exact ⟨by decide, by decide, by decide, by decide⟩

/-- Claim C9 as amended: port_unregister succeeds exactly when the supplied
path sscanf-parses as the manager path followed by "/rfcomm" and an int16 id
and some bound session's device equals the 15-character-truncated snprintf of
"/dev/rfcomm" followed by that id (truncation bites for ids of five or more
digits, or at or below -1000); every unsuccessful call returns not-found and
leaves the state untouched, so a bound session whose device is not of that
truncated form for any parseable id can never be removed through this
operation. -/
theorem port_unregister_success_iff (s : PortState) (path : String) :
    ((port_unregister s path).1 = 0 ↔
      ∃ idp, sscanf_rfcomm path = some idp ∧
        (find_node_by_name s.bound (snprintf_dev idp)).isSome) ∧
    ((port_unregister s path).1 ≠ 0 →
      port_unregister s path = (-ENOENT, s)) := by
  cases hp : sscanf_rfcomm path with
  | none =>
    have e1 : port_unregister s path = (-ENOENT, s) := by
      simp [port_unregister, hp]
    rw [e1]
    refine ⟨iff_of_false (by norm_num [ENOENT]) ?_, fun _ => rfl⟩
    rintro ⟨idp, hidp, _⟩
    cases hidp
  | some idp =>
    cases hf : find_node_by_name s.bound (snprintf_dev idp) with
    | none =>
      have e2 : port_unregister s path = (-ENOENT, s) := by
        simp [port_unregister, hp, hf]
      rw [e2]
      refine ⟨iff_of_false (by norm_num [ENOENT]) ?_, fun _ => rfl⟩
      rintro ⟨idp2, hidp2, hsome⟩
      have hii : idp = idp2 := by cases hidp2; rfl
      rw [← hii, hf] at hsome
      cases hsome
    | some nd =>
      have e3 : port_unregister s path
          = (0, dbus_connection_destroy_object_path s path) := by
        simp [port_unregister, hp, hf]
      rw [e3]
      exact ⟨iff_of_true rfl ⟨idp, rfl, by rw [hf]; rfl⟩,
        fun h0 => absurd rfl h0⟩

/-- Witness for the amended C9: the characterization instantiated at the
truncation state and the five-digit path. -/
theorem port_unregister_success_iff_witness :
    ((port_unregister boundTrunc "/org/bluez/serial/rfcomm12345").1 = 0 ↔
      ∃ idp, sscanf_rfcomm "/org/bluez/serial/rfcomm12345" = some idp ∧
        (find_node_by_name boundTrunc.bound (snprintf_dev idp)).isSome) ∧
    ((port_unregister boundTrunc "/org/bluez/serial/rfcomm12345").1 ≠ 0 →
      port_unregister boundTrunc "/org/bluez/serial/rfcomm12345"
        = (-ENOENT, boundTrunc)) :=
  port_unregister_success_iff boundTrunc "/org/bluez/serial/rfcomm12345"

/-- Claim C10: duplicates are never rejected, and every path-based operation
resolves to the earliest-inserted duplicate: find_node_by_name scans from the
head and returns the first match; the owner's disconnect removes exactly that
earliest node, leaving the later duplicate in place; insertion into either
collection appends at the tail (port_add_listener and port_register); and
port_unregister's device lookup succeeds through the earliest duplicate. -/
theorem duplicate_path_first_match (pre rest : List Node) (a b : Node)
    (w : String) (s : PortState)
    (hconn : s.connected = pre ++ a :: rest)
    (hb : b ∈ rest) (hdup : b.device = a.device)
    (hpre : ∀ m ∈ pre, m.device ≠ a.device)
    (hpreref : ∀ m ∈ pre, m.ref ≠ a.ref)
    (hw : a.owner = some w) :
    find_node_by_name s.connected a.device = some a ∧
    (port_remove_listener s w a.device).2.connected = pre ++ rest ∧
    b ∈ (port_remove_listener s w a.device).2.connected ∧
    (∀ (s2 : PortState) ref id dst dev ow res,
      (port_add_listener s2 ref id dst dev ow res).2.connected
        = g_slist_append s2.connected (mk_listener_node ref id dst dev ow)) ∧
    (∀ (s3 : PortState) ref id src dst dev svc,
      (port_register s3 ref id src dst dev svc true true).2.bound
        = g_slist_append s3.bound (mk_register_node ref id src dst dev svc)) ∧
    (∀ (sb : PortState) path idp, sb.bound = pre ++ a :: rest →
      sscanf_rfcomm path = some idp → snprintf_dev idp = a.device →
      (port_unregister sb path).1 = 0) := by
  have hfind : find_node_by_name s.connected a.device = some a := by
    rw [hconn, find_node_append_none hpre]
    exact find_node_cons_self rfl
  have hrem := remove_listener_success hfind hw
  have hconn2 : (port_remove_listener s w a.device).2.connected
      = pre ++ rest := by
    rw [hrem]
    show g_slist_remove_node s.connected a = pre ++ rest
    rw [hconn, remove_node_append hpreref, remove_node_head]
  refine ⟨hfind, hconn2,
    by rw [hconn2]; exact List.mem_append_right _ hb, ?_, ?_, ?_⟩
  · intro s2 ref id dst dev ow res
    by_cases h : res = 0 <;> simp [port_add_listener, h, g_slist_append]
  · intro s3 ref id src dst dev svc
    simp [port_register, g_slist_append]
  · intro sb path idp hsb hident hdev2
    simp only [port_unregister, hident]
    rw [hdev2, hsb, find_node_append_none hpre, find_node_cons_self rfl]

/-- Witness for C10: two connected sessions share /dev/rfcomm0; lookup
returns the first, the owner's disconnect removes the first and leaves the
second, and unregister through path .../rfcomm0 succeeds against the first
duplicate in the bound collection. -/
theorem duplicate_path_first_match_witness :
    find_node_by_name dupConn.connected nodeA.device = some nodeA ∧
    (port_remove_listener dupConn "org.client.Z" nodeA.device).2.connected
      = [nodeB] ∧
    (port_unregister dupBound "/org/bluez/serial/rfcomm0").1 = 0 := by
  have h := duplicate_path_first_match [] [nodeB] nodeA nodeB "org.client.Z"
    dupConn rfl (by simp) rfl (by simp) (by simp) rfl
  exact ⟨h.1, by simpa using h.2.1,
    h.2.2.2.2.2 dupBound "/org/bluez/serial/rfcomm0" 0 rfl (by decide)
      (by decide)⟩

end SerialPort
